import Mathlib

/-! # fixgpt: the HTTP gateway of `server/server.go`

A shallow embedding of the five route handlers, of `createSessionKey`,
`createOpenaiChatClient` and of the start-up sequence of `main`.

Everything the program obtains from outside is an explicit argument: the
request, the process environment and the `.env` file, the JSON decoders of
`encoding/json`, the upstream calls (`http.DefaultClient.Do`,
`client.Responses.New`) and the files of the working directory.  Every run
returns the response writer as the handler left it, the ordered list of the
events the run caused outside the handler, and how the run ended: a normal
return, a run-time panic, or `os.Exit`.

Conventions:

* a Go result pair `(value, err)` whose value is unused on error is an
  `Except`; where Go code goes on to use the value next to a non-nil error
  (`client.Responses.New` in `/chat`) the pair is kept, `none` standing for
  `nil`;
* `%v` of an error is its message, `%d` of a status its decimal digits;
* request and response bodies are `String`s;
* writes to the response writer succeed.
-/

namespace FixGPT

/-! ## The `net/http` response writer -/

/-- Header map of a response, in insertion order. -/
abbrev Header := List (String × String)

/-- Go's `Header.Del`: removes every value stored under a key. -/
def Header.Del (h : Header) (k : String) : Header :=
  h.filter (fun p => p.1 != k)

/-- Go's `Header.Set`: replaces the values stored under a key by one value. -/
def Header.Set (h : Header) (k v : String) : Header :=
  Header.Del h k ++ [(k, v)]

/-- The response a handler builds.  `status` is `none` until the status line
has been written; `body` holds the bytes written so far. -/
structure ResponseWriter where
  status : Option Nat
  header : Header
  body : String
deriving DecidableEq, Repr

/-- The writer the server hands to a handler. -/
def ResponseWriter.fresh : ResponseWriter := ⟨none, [], ""⟩

/-- The status code the client receives: the one written, or 200 when the
handler never wrote one. -/
def ResponseWriter.code (w : ResponseWriter) : Nat := w.status.getD 200

/-- Go's `w.WriteHeader(code)`: the first call fixes the status, later calls are
ignored. -/
def WriteHeader (w : ResponseWriter) (code : Nat) : ResponseWriter :=
  match w.status with
  | none => { w with status := some code }
  | some _ => w

/-- Go's `w.Write(p)`: writes the status line with 200 when none was written yet,
then appends to the body. -/
def Write (w : ResponseWriter) (p : String) : ResponseWriter :=
  let w1 := WriteHeader w 200
  { w1 with body := w1.body ++ p }

/-- Go's `fmt.Fprintln(w, s)`. -/
def Fprintln (w : ResponseWriter) (s : String) : ResponseWriter :=
  Write w (s ++ "\n")

/-- Go's `http.Error(w, msg, code)`: plain-text headers, the status, then the
message and a newline. -/
def Error (w : ResponseWriter) (msg : String) (code : Nat) : ResponseWriter :=
  let h0 := Header.Del w.header "Content-Length"
  let h1 := Header.Set h0 "Content-Type" "text/plain; charset=utf-8"
  let h2 := Header.Set h1 "X-Content-Type-Options" "nosniff"
  Fprintln (WriteHeader { w with header := h2 } code) msg

/-- Go's `http.NotFound(w, r)`. -/
def NotFound (w : ResponseWriter) : ResponseWriter :=
  Error w "404 page not found" 404

/-! ## Requests, events and runs -/

/-- A request body as a stream: the bytes it delivers and, when reading does
not end in a clean end of stream, the error it ends with. -/
structure Body where
  data : String
  err : Option String
deriving DecidableEq, Repr

/-- Go's `io.ReadAll(body)`: the bytes read and the error, if any. -/
def ReadAll (b : Body) : String × Option String := (b.data, b.err)

/-- The fields of `*http.Request` the handlers and `http.ServeFile` look at:
the method, `URL.Path`, the header map (keys in canonical form) and the
body. -/
structure Request where
  Method : String
  Path : String
  Header : Header
  Body : Body
deriving DecidableEq, Repr

/-- What a run does to the outside world, in order. -/
inductive Event where
  | stdout (s : String)
  | stderr (s : String)
  | loadDotenv
  | readBody
  | decodeBody
  | openFile (name : String)
  | responsesNew (model input : String)
  | httpDo (method url : String) (header : Header) (body : String)
  | handleFunc (pattern : String)
  | listenAndServe (addr : String)
deriving DecidableEq, Repr

/-- How a run ends: the handler returns, the goroutine panics, the process
exits, or (for `main`) the server keeps serving. -/
inductive Termination where
  | returned
  | panicked (msg : String)
  | exited (code : Nat)
  | serving
deriving DecidableEq, Repr

/-- The result of running a handler. -/
structure Run where
  w : ResponseWriter
  trace : List Event
  outcome : Termination
deriving DecidableEq, Repr

/-! ## `encoding/json` output -/

/-- One lower-case hexadecimal digit. -/
def hexDigit (n : Nat) : Char :=
  if n < 10 then Char.ofNat (48 + n) else Char.ofNat (87 + n)

/-- The four hexadecimal digits of a `\u` escape. -/
def hex4 (n : Nat) : String :=
  String.mk [hexDigit (n / 4096 % 16), hexDigit (n / 256 % 16), hexDigit (n / 16 % 16), hexDigit (n % 16)]

/-- How `encoding/json` writes one character of a string: the two-character
escapes for the quote, the backslash, backspace, form feed, newline, carriage
return and tab, and a `\u` escape for the other control characters, for `<`,
`>` and `&` (HTML escaping is on by default) and for U+2028 and U+2029. -/
def escapeChar (c : Char) : String :=
  let n := c.toNat
  if n = 34 then "\\\""
  else if n = 92 then "\\\\"
  else if n = 8 then "\\b"
  else if n = 12 then "\\f"
  else if n = 10 then "\\n"
  else if n = 13 then "\\r"
  else if n = 9 then "\\t"
  else if n < 32 ∨ n = 60 ∨ n = 62 ∨ n = 38 ∨ n = 8232 ∨ n = 8233 then "\\u" ++ hex4 n
  else String.singleton c

/-- The JSON string literal for a Go string. -/
def jsonString (s : String) : String :=
  "\"" ++ String.join (s.toList.map escapeChar) ++ "\""

/-- The value of one hexadecimal digit as `hexDigit` writes it. -/
def unhexDigit (c : Char) : Nat :=
  if c.toNat < 58 then c.toNat - 48 else c.toNat - 87

/-- Reads one escaped character back from the front of a JSON string body:
the character and the rest of the text.  It is the inverse of `escapeChar`
that shows `jsonString` loses nothing. -/
def unescapeStep : List Char → Option (Char × List Char)
  | [] => none
  | c :: rest =>
    if c.toNat ≠ 92 then some (c, rest)
    else
      match rest with
      | [] => none
      | e :: rest2 =>
        if e.toNat = 34 then some (Char.ofNat 34, rest2)
        else if e.toNat = 92 then some (Char.ofNat 92, rest2)
        else if e.toNat = 98 then some (Char.ofNat 8, rest2)
        else if e.toNat = 102 then some (Char.ofNat 12, rest2)
        else if e.toNat = 110 then some (Char.ofNat 10, rest2)
        else if e.toNat = 114 then some (Char.ofNat 13, rest2)
        else if e.toNat = 116 then some (Char.ofNat 9, rest2)
        else
          match rest2 with
          | a :: b :: c2 :: d :: rest3 =>
            some (Char.ofNat (4096 * unhexDigit a + 256 * unhexDigit b + 16 * unhexDigit c2
              + unhexDigit d), rest3)
          | _ => none

/-- Go's `json.NewEncoder(w).Encode(v)`, given the outcome of marshalling `v`: on
success the JSON text followed by a newline is written. -/
def Encode (w : ResponseWriter) (marshalled : Except String String) : ResponseWriter × Option String :=
  match marshalled with
  | .error e => (w, some e)
  | .ok js => (Write w (js ++ "\n"), none)

/-! ## The weather tool -/

/-- Go's `WeatherRequest`. -/
structure WeatherRequest where
  Location : String
deriving DecidableEq, Repr

/-- Go's `WeatherResponse`. -/
structure WeatherResponse where
  Temperature : Int
  Units : String
deriving DecidableEq, Repr

/-- Go's `json.Marshal` of a `WeatherResponse`, fields in declaration order under
their `json` tags. -/
def marshalWeatherResponse (v : WeatherResponse) : Except String String :=
  .ok ("\x7b\"temperature\":" ++ toString v.Temperature ++ ",\"units\":" ++ jsonString v.Units ++ "\x7d")

/-- Go's `getWeatherHandler`.  `decode` stands for
`json.NewDecoder(r.Body).Decode(&weatherReq)`. -/
def getWeatherHandler (decode : Body → Except String WeatherRequest)
    (w : ResponseWriter) (r : Request) : Run :=
  if r.Method ≠ "POST" then
    ⟨Error w "Method not allowed" 405, [], .returned⟩
  else
    match decode r.Body with
    | .error err =>
      ⟨Error w ("Error parsing request body: " ++ err) 400, [.decodeBody], .returned⟩
    | .ok weatherReq =>
      let log := Event.stdout ("Weather request received for location: " ++ weatherReq.Location ++ "\n")
      let weatherResp : WeatherResponse := ⟨18, "C"⟩
      let w1 := { w with header := Header.Set w.header "Content-Type" "application/json" }
      match Encode w1 (marshalWeatherResponse weatherResp) with
      | (w2, some err) =>
        ⟨Error w2 ("Error encoding response: " ++ err) 500, [.decodeBody, log], .returned⟩
      | (w2, none) => ⟨w2, [.decodeBody, log], .returned⟩

/-- The text `{"temperature":18,"units":"C"}`. -/
def weatherPayload : String := "\x7b\"temperature\":18,\"units\":\"C\"\x7d"

/-! ## The process environment -/

/-- Environment variables, as name and value pairs. -/
abbrev Environ := List (String × String)

/-- What the process starts from: its environment variables, and the outcome
of reading and parsing the `.env` file of the working directory (the error
text, or the variables the file defines). -/
structure Process where
  environ : Environ
  dotenv : Except String Environ

/-- Go's `os.Getenv(k)`: the value of the variable, empty when it is not set. -/
def Getenv (env : Environ) (k : String) : String := (env.lookup k).getD ""

/-- Go's `godotenv.Load()`: fails when the file cannot be read or parsed; otherwise
sets every variable of the file that the environment does not hold yet. -/
def godotenvLoad (p : Process) : Except String Environ :=
  match p.dotenv with
  | .error e => .error e
  | .ok file => .ok (p.environ ++ file.filter (fun kv => (p.environ.lookup kv.1).isNone))

/-! ## The upstream SDK client -/

/-- Go's `openai.ChatModelGPT4o`. -/
def chatModel : String := "gpt-4o"

/-- Go's `openai.ChatModelO3Mini`. -/
def o3Model : String := "o3-mini"

/-- Go's `openai.Client`, as far as this program configures it. -/
structure Client where
  apiKey : String
deriving DecidableEq, Repr

/-- Go's `responses.Response`, as far as this program reads it. -/
structure Response where
  OutputText : String
deriving DecidableEq, Repr

/-- Go's `client.Responses.New(ctx, params)` for a model and an input string: the
pair `(response, err)` Go returns, where `none` is `nil`. -/
abbrev ResponsesNew := Client → String → String → Option Response × Option String

/-- Go's `createOpenaiChatClient`: the events of the call and either the client or
the status `os.Exit` is called with. -/
def createOpenaiChatClient (p : Process) : List Event × Except Nat Client :=
  match godotenvLoad p with
  | .error err =>
    ([.loadDotenv, .stderr ("Error loading .env file: " ++ err ++ "\n")], .error 1)
  | .ok env =>
    let apiKey := Getenv env "OPENAI_API_KEY"
    if apiKey = "" then
      ([.loadDotenv, .stderr "OPENAI_API_KEY is not set\n"], .error 1)
    else
      ([.loadDotenv], .ok ⟨apiKey⟩)

/-- The message of Go's run-time panic on a nil pointer. -/
def nilDereference : String :=
  "runtime error: invalid memory address or nil pointer dereference"

/-- The handler registered for `/chat`. -/
def chatHandler (p : Process) (api : ResponsesNew) (w : ResponseWriter) (r : Request) : Run :=
  match createOpenaiChatClient p with
  | (ev, .error code) => ⟨w, ev, .exited code⟩
  | (ev, .ok client) =>
    match ReadAll r.Body with
    | (_, some err) =>
      ⟨Write w ("Error reading request body: " ++ err ++ "\n"), ev ++ [.readBody], .returned⟩
    | (bodyBytes, none) =>
      let userQuery := bodyBytes
      let tr := ev ++ [.readBody, .responsesNew chatModel userQuery]
      match api client chatModel userQuery with
      | (response, err) =>
        let w1 :=
          match err with
          | some e => Write w ("Error creating chat completion: " ++ e ++ "\n")
          | none => w
        match response with
        | none => ⟨w1, tr, .panicked nilDereference⟩
        | some resp => ⟨Write w1 resp.OutputText, tr, .returned⟩

/-- The handler registered for `/reasoning`. -/
def reasoningHandler (p : Process) (api : ResponsesNew) (w : ResponseWriter) (r : Request) : Run :=
  if r.Method ≠ "POST" then
    ⟨Error w "Method not allowed" 405, [], .returned⟩
  else
    match createOpenaiChatClient p with
    | (ev, .error code) => ⟨w, ev, .exited code⟩
    | (ev, .ok client) =>
      match ReadAll r.Body with
      | (_, some err) =>
        ⟨Error w ("Error reading request body: " ++ err) 400, ev ++ [.readBody], .returned⟩
      | (bodyBytes, none) =>
        let userQuery := bodyBytes
        let tr := ev ++ [.readBody, .responsesNew o3Model userQuery]
        match api client o3Model userQuery with
        | (_, some e) =>
          ⟨Error w ("Error creating chat completion: " ++ e) 500, tr, .returned⟩
        | (response, none) =>
          let w1 := { w with header := Header.Set w.header "Content-Type" "text/plain" }
          match response with
          | none => ⟨w1, tr, .panicked nilDereference⟩
          | some resp => ⟨Write w1 resp.OutputText, tr, .returned⟩

/-! ## The session key -/

/-- Go's `*http.Response` of the upstream call, as far as this program reads it. -/
structure UpstreamResponse where
  StatusCode : Nat
  Body : Body
deriving DecidableEq, Repr

/-- Go's `http.DefaultClient.Do(req)` for a request given by method, URL, headers
and body: the response, or the transport error. -/
abbrev Transport := String → String → Header → String → Except String UpstreamResponse

/-- The `client_secret` object of the token response. -/
structure ClientSecret where
  Value : String
deriving DecidableEq, Repr

/-- The anonymous struct `tokenResponse` of `createSessionKey`. -/
structure TokenResponse where
  ClientSecret : ClientSecret
deriving DecidableEq, Repr

/-- Go's `json.Marshal(reqBody)` for the anonymous struct with `model` and
`voice`. -/
def marshalSessionRequest (model voice : String) : Except String String :=
  .ok ("\x7b\"model\":" ++ jsonString model ++ ",\"voice\":" ++ jsonString voice ++ "\x7d")

/-- Go's `createSessionKey`.  `unmarshal` stands for
`json.Unmarshal(bodyBytes, &tokenResponse)`.  Returns the events of the call
and Go's `(string, error)` as a sum. -/
def createSessionKey (transport : Transport) (unmarshal : String → Except String TokenResponse)
    (apiKey : String) : List Event × Except String String :=
  match marshalSessionRequest "gpt-4o-realtime-preview-2024-12-17" "echo" with
  | .error err => ([], .error err)
  | .ok jsonBody =>
    let url := "https://api.openai.com/v1/realtime/sessions"
    let hdr := Header.Set (Header.Set [] "Content-Type" "application/json")
      "Authorization" ("Bearer " ++ apiKey)
    let ev := [Event.httpDo "POST" url hdr jsonBody]
    match transport "POST" url hdr jsonBody with
    | .error err => (ev, .error err)
    | .ok token =>
      if token.StatusCode ≠ 200 then
        (ev, .error ("openai request failed: " ++ toString token.StatusCode))
      else
        match ReadAll token.Body with
        | (_, some err) => (ev, .error err)
        | (bodyBytes, none) =>
          match unmarshal bodyBytes with
          | .error err => (ev, .error ("failed to decode token response: " ++ err))
          | .ok tokenResponse =>
            if tokenResponse.ClientSecret.Value = "" then
              (ev, .error "received empty client secret from OpenAI API")
            else
              (ev, .ok tokenResponse.ClientSecret.Value)

/-- Go's `json.Marshal` of the anonymous response struct of the `/session`
handler. -/
def marshalSessionResponse (success : Bool) (key : String) : Except String String :=
  .ok ("\x7b\"success\":" ++ (if success then "true" else "false") ++ ",\"key\":" ++ jsonString key ++ "\x7d")

/-- The handler registered for `/session`. -/
def sessionHandler (transport : Transport) (unmarshal : String → Except String TokenResponse)
    (apiKey : String) (w : ResponseWriter) (_r : Request) : Run :=
  match createSessionKey transport unmarshal apiKey with
  | (ev, .error err) =>
    ⟨Write (WriteHeader w 500) ("Error creating session key. " ++ err ++ "\n"), ev, .returned⟩
  | (ev, .ok sessionKey) =>
    let w1 := { w with header := Header.Set w.header "Content-Type" "application/json" }
    ⟨(Encode w1 (marshalSessionResponse true sessionKey)).1, ev, .returned⟩

/-- The body of a successful `/session` response carrying the key `k`: the
JSON object with `success` true and `key` `k`, as the encoder writes it. -/
def sessionSuccessBody (k : String) : String :=
  "\x7b\"success\":true,\"key\":" ++ jsonString k ++ "\x7d\n"

/-! ## The root route -/

/-- The files of the working directory: the contents of a file that can be
opened, `none` for a name that does not exist. -/
abbrev FileSystem := String → Option String

/-- Go's `containsDotDot` of `net/http`: some element of the path is `..`. -/
def containsDotDot (v : String) : Bool :=
  (v.toList.splitOnP (fun c => c.toNat = 47 || c.toNat = 92)).any (fun ent => ent = "..".toList)

/-- The request headers `http.ServeFile` acts on: the preconditions and the
byte range. -/
def conditionalHeaders : List String :=
  ["If-Match", "If-Unmodified-Since", "If-None-Match", "If-Modified-Since", "If-Range", "Range"]

/-- The request carries a precondition or a byte range. -/
def isConditional (r : Request) : Bool :=
  r.Header.any (fun kv => conditionalHeaders.contains kv.1)

/-- What `http.ServeFile` does with an open file when the request carries a
precondition or a byte range (304, 206, 412, 416 and their bodies): the
writer it leaves, given the writer, the request and the contents of the
file. -/
abbrev ServeConditional := ResponseWriter → Request → String → ResponseWriter

/-- Go's `http.ServeFile(w, r, name)` for a name with no directory part:
rejects a URL path with a `..` element, redirects a URL path ending in
`/index.html`, answers 404 for a file that does not exist, hands a request
with a precondition or a byte range to `conditional`, and otherwise replies
200, with the contents of the file as the body unless the method is HEAD, for
which only the status line and the headers are written.  Of the headers it
sets only `Location` and `Content-Type` are recorded. -/
def ServeFile (fs : FileSystem) (conditional : ServeConditional) (w : ResponseWriter)
    (r : Request) (name : String) : ResponseWriter × List Event :=
  if containsDotDot r.Path then
    (Error w "invalid URL path" 400, [])
  else if "/index.html".toList.isSuffixOf r.Path.toList then
    (WriteHeader { w with header := Header.Set w.header "Location" "./" } 301, [])
  else
    match fs name with
    | none => (Error w "404 page not found" 404, [.openFile name])
    | some content =>
      if isConditional r then
        (conditional w r content, [.openFile name])
      else
        let w1 := { w with header := Header.Set w.header "Content-Type" "text/html; charset=utf-8" }
        if r.Method = "HEAD" then
          (WriteHeader w1 200, [.openFile name])
        else
          (Write (WriteHeader w1 200) content, [.openFile name])

/-- The handler registered for `/`. -/
def rootHandler (fs : FileSystem) (conditional : ServeConditional) (w : ResponseWriter)
    (r : Request) : Run :=
  if r.Path ≠ "/" then
    ⟨NotFound w, [], .returned⟩
  else
    let indexPath := "index.html"
    match ServeFile fs conditional w r indexPath with
    | (w1, ev) => ⟨w1, ev, .returned⟩

/-! ## Start-up -/

/-- Go's `main` up to and including `http.ListenAndServe`.  `listen` is the error
`ListenAndServe` returns, `none` when it keeps serving and never returns. -/
def main (p : Process) (listen : Option String) : List Event × Termination :=
  match godotenvLoad p with
  | .error err =>
    ([.loadDotenv, .stdout ("Warning: Error loading .env file: " ++ err ++ "\n")], .exited 1)
  | .ok env =>
    let apiKey := Getenv env "OPENAI_API_KEY"
    if apiKey = "" then
      ([.loadDotenv, .stderr "OPENAI_API_KEY is not set\n"], .exited 1)
    else
      let routes := [Event.loadDotenv, .handleFunc "/session", .handleFunc "/chat", .handleFunc "/",
        .handleFunc "/tools/getWeather", .handleFunc "/reasoning",
        .stdout "http://localhost:8080\n", .listenAndServe ":8080"]
      match listen with
      | some err => (routes ++ [.stdout ("Error starting server: " ++ err ++ "\n")], .returned)
      | none => (routes, .serving)

/-! ## Theorems: the weather tool -/

/-- The writer a successful weather call leaves behind. -/
theorem getWeatherHandler_ok (decode : Body → Except String WeatherRequest) (r : Request)
    (X : String) (hm : r.Method = "POST") (hd : decode r.Body = .ok ⟨X⟩) :
    (getWeatherHandler decode ResponseWriter.fresh r).w =
      ⟨some 200, [("Content-Type", "application/json")], weatherPayload ++ "\n"⟩ := by
  unfold getWeatherHandler
  simp only [hm, hd]
  rfl

/-- The run of a weather call whose method is not POST. -/
theorem getWeatherHandler_not_post (decode : Body → Except String WeatherRequest) (r : Request)
    (hm : r.Method ≠ "POST") :
    getWeatherHandler decode ResponseWriter.fresh r =
      ⟨Error ResponseWriter.fresh "Method not allowed" 405, [], .returned⟩ := by
  unfold getWeatherHandler
  simp [hm]

/-- The run of a POSTed weather call whose body does not decode. -/
theorem getWeatherHandler_bad_body (decode : Body → Except String WeatherRequest) (r : Request)
    (e : String) (hm : r.Method = "POST") (hd : decode r.Body = .error e) :
    getWeatherHandler decode ResponseWriter.fresh r =
      ⟨Error ResponseWriter.fresh ("Error parsing request body: " ++ e) 400, [.decodeBody],
        .returned⟩ := by
  unfold getWeatherHandler
  simp [hm, hd]

/-- The status `http.Error` leaves on a fresh writer is the one it is given. -/
theorem Error_fresh_code (msg : String) (code : Nat) :
    (Error ResponseWriter.fresh msg code).code = code := by
  rfl

/-- The body `http.Error` leaves on a fresh writer is the message and a
newline. -/
theorem Error_fresh_body (msg : String) (code : Nat) :
    (Error ResponseWriter.fresh msg code).body = msg ++ "\n" := by
  simp [Error, Fprintln, Write, WriteHeader, ResponseWriter.fresh]

/-- C1, as stated, fails: for the valid body `{"location":"Paris"}` the
handler answers 200, and the body it writes is the JSON text followed by a
newline, which is not the JSON text itself. -/
theorem getWeather_body_has_newline :
    (getWeatherHandler (fun _ => .ok ⟨"Paris"⟩) ResponseWriter.fresh
        ⟨"POST", "/tools/getWeather", [], ⟨"\x7b\"location\":\"Paris\"\x7d", none⟩⟩).w.code = 200 ∧
    (getWeatherHandler (fun _ => .ok ⟨"Paris"⟩) ResponseWriter.fresh
        ⟨"POST", "/tools/getWeather", [], ⟨"\x7b\"location\":\"Paris\"\x7d", none⟩⟩).w.body
      = weatherPayload ++ "\n" ∧
    (getWeatherHandler (fun _ => .ok ⟨"Paris"⟩) ResponseWriter.fresh
        ⟨"POST", "/tools/getWeather", [], ⟨"\x7b\"location\":\"Paris\"\x7d", none⟩⟩).w.body
      ≠ weatherPayload := by
  decide

/-- C1 (amended): for every POST request whose body decodes as a weather
request with location `X`, `getWeatherHandler` returns normally with status
200 and a body that is exactly `{"temperature":18,"units":"C"}` followed by
one newline; every other valid POST, whatever its location, gets the same
response. -/
theorem getWeather_valid_post (decode : Body → Except String WeatherRequest) (r : Request)
    (X : String) (hm : r.Method = "POST") (hd : decode r.Body = .ok ⟨X⟩) :
    (getWeatherHandler decode ResponseWriter.fresh r).outcome = .returned ∧
    (getWeatherHandler decode ResponseWriter.fresh r).w.code = 200 ∧
    (getWeatherHandler decode ResponseWriter.fresh r).w.body = weatherPayload ++ "\n" ∧
    ∀ (decode2 : Body → Except String WeatherRequest) (r2 : Request) (X2 : String),
      r2.Method = "POST" → decode2 r2.Body = .ok ⟨X2⟩ →
      (getWeatherHandler decode2 ResponseWriter.fresh r2).w =
        (getWeatherHandler decode ResponseWriter.fresh r).w := by
  refine ⟨?_, ?_, ?_, ?_⟩
  · unfold getWeatherHandler
    simp only [hm, hd]
    rfl
  · rw [getWeatherHandler_ok decode r X hm hd]
    rfl
  · rw [getWeatherHandler_ok decode r X hm hd]
  · intro decode2 r2 X2 hm2 hd2
    rw [getWeatherHandler_ok decode r X hm hd, getWeatherHandler_ok decode2 r2 X2 hm2 hd2]

/-- Witness of `getWeather_valid_post`: a POST for Paris. -/
theorem getWeather_valid_post_witness :
    (⟨"POST", "/tools/getWeather", [], ⟨"\x7b\"location\":\"Paris\"\x7d", none⟩⟩ : Request).Method = "POST" ∧
    (getWeatherHandler (fun _ => .ok ⟨"Paris"⟩) ResponseWriter.fresh
        ⟨"POST", "/tools/getWeather", [], ⟨"\x7b\"location\":\"Paris\"\x7d", none⟩⟩).w.body
      = weatherPayload ++ "\n" :=
  ⟨rfl, (getWeather_valid_post (fun _ => .ok ⟨"Paris"⟩)
    ⟨"POST", "/tools/getWeather", [], ⟨"\x7b\"location\":\"Paris\"\x7d", none⟩⟩ "Paris" rfl rfl).2.2.1⟩

/-- C2: for every request to `/tools/getWeather` whose method is not POST,
whatever its body and whatever the decoder would make of it, the handler
answers 405 with the body `Method not allowed`, which holds no weather
payload; the run touches nothing outside (the body is not decoded) and is the
same for every decoder. -/
theorem getWeather_not_post_405 (decode : Body → Except String WeatherRequest) (r : Request)
    (hm : r.Method ≠ "POST") :
    (getWeatherHandler decode ResponseWriter.fresh r).outcome = .returned ∧
    (getWeatherHandler decode ResponseWriter.fresh r).w.code = 405 ∧
    (getWeatherHandler decode ResponseWriter.fresh r).w.body = "Method not allowed\n" ∧
    ¬ (weatherPayload.toList <:+: (getWeatherHandler decode ResponseWriter.fresh r).w.body.toList) ∧
    (getWeatherHandler decode ResponseWriter.fresh r).trace = [] ∧
    ∀ decode2 : Body → Except String WeatherRequest,
      getWeatherHandler decode2 ResponseWriter.fresh r =
        getWeatherHandler decode ResponseWriter.fresh r := by
  rw [getWeatherHandler_not_post decode r hm]
  refine ⟨rfl, rfl, rfl, by decide, rfl, ?_⟩
  intro decode2
  rw [getWeatherHandler_not_post decode2 r hm]

/-- Witness of `getWeather_not_post_405`: a GET carrying a valid body. -/
theorem getWeather_not_post_405_witness :
    (⟨"GET", "/tools/getWeather", [], ⟨"\x7b\"location\":\"Paris\"\x7d", none⟩⟩ : Request).Method ≠ "POST" ∧
    (getWeatherHandler (fun _ => .ok ⟨"Paris"⟩) ResponseWriter.fresh
        ⟨"GET", "/tools/getWeather", [], ⟨"\x7b\"location\":\"Paris\"\x7d", none⟩⟩).w.code = 405 :=
  ⟨by decide, (getWeather_not_post_405 (fun _ => .ok ⟨"Paris"⟩)
    ⟨"GET", "/tools/getWeather", [], ⟨"\x7b\"location\":\"Paris\"\x7d", none⟩⟩ (by decide)).2.1⟩

/-- Two texts that start with different characters are different. -/
theorem front_ne (x y : Char) (a c : List Char) (t u : String) (hxy : x ≠ y) :
    String.mk (x :: a) ++ t ≠ String.mk (y :: c) ++ u := by
  intro h
  have h2 := congrArg String.data h
  simp [String.data_append] at h2
  exact hxy h2.1

/-- C3: for every POST request to `/tools/getWeather` the status is 400
exactly when the body fails to decode into a `WeatherRequest`; on that path
the handler returns right after the decoding, having written only the error
line (the decoder's message and a newline), which is not the weather response,
and on every other POST the status is 200. -/
theorem getWeather_post_400_iff (decode : Body → Except String WeatherRequest) (r : Request)
    (hm : r.Method = "POST") :
    ((getWeatherHandler decode ResponseWriter.fresh r).w.code = 400 ↔
      ∃ e, decode r.Body = .error e) ∧
    (∀ e, decode r.Body = .error e →
      (getWeatherHandler decode ResponseWriter.fresh r).outcome = .returned ∧
      (getWeatherHandler decode ResponseWriter.fresh r).trace = [.decodeBody] ∧
      (getWeatherHandler decode ResponseWriter.fresh r).w.body =
        "Error parsing request body: " ++ e ++ "\n" ∧
      (getWeatherHandler decode ResponseWriter.fresh r).w.body ≠ weatherPayload ++ "\n") ∧
    ((¬ ∃ e, decode r.Body = .error e) →
      (getWeatherHandler decode ResponseWriter.fresh r).w.code = 200) := by
  cases hd : decode r.Body with
  | error e =>
    rw [getWeatherHandler_bad_body decode r e hm hd]
    refine ⟨⟨fun _ => ⟨e, rfl⟩, fun _ => Error_fresh_code _ _⟩, ?_, ?_⟩
    · intro e2 he2
      cases he2
      refine ⟨rfl, rfl, Error_fresh_body _ _, ?_⟩
      rw [Error_fresh_body, String.append_assoc]
      exact front_ne (Char.ofNat 69) (Char.ofNat 123) _ _ _ _ (by decide)
    · intro hne
      exact absurd ⟨e, rfl⟩ hne
  | ok v =>
    have hw := getWeatherHandler_ok decode r v.Location hm hd
    rw [hw]
    refine ⟨⟨fun h => ?_, fun h => ?_⟩, ?_, ?_⟩
    · exact absurd h (by decide)
    · obtain ⟨e, he⟩ := h
      cases he
    · intro e he
      cases he
    · intro _
      rfl

/-- Witness of `getWeather_post_400_iff`: a POST whose body is not JSON. -/
theorem getWeather_post_400_iff_witness :
    (⟨"POST", "/tools/getWeather", [], ⟨"not json", none⟩⟩ : Request).Method = "POST" ∧
    (getWeatherHandler (fun _ => .error "invalid character") ResponseWriter.fresh
        ⟨"POST", "/tools/getWeather", [], ⟨"not json", none⟩⟩).w.code = 400 :=
  ⟨rfl, (getWeather_post_400_iff (fun _ => .error "invalid character")
    ⟨"POST", "/tools/getWeather", [], ⟨"not json", none⟩⟩ rfl).1.2 ⟨_, rfl⟩⟩

/-! ## Theorems: the root route -/

/-- C4, as stated, fails: for `HEAD /` with `index.html` in the working
directory the root handler answers 200 and writes no body, so the answer does
not carry the contents of the file. -/
theorem root_head_has_no_body :
    (rootHandler (fun n => if n = "index.html" then some "<html></html>" else none)
        (fun w _ _ => w) ResponseWriter.fresh ⟨"HEAD", "/", [], ⟨"", none⟩⟩).w.code = 200 ∧
    (rootHandler (fun n => if n = "index.html" then some "<html></html>" else none)
        (fun w _ _ => w) ResponseWriter.fresh ⟨"HEAD", "/", [], ⟨"", none⟩⟩).w.body = "" ∧
    (rootHandler (fun n => if n = "index.html" then some "<html></html>" else none)
        (fun w _ _ => w) ResponseWriter.fresh ⟨"HEAD", "/", [], ⟨"", none⟩⟩).w.body
      ≠ "<html></html>" := by
  decide

/-- C4 (amended): for every working directory that holds `index.html`, the
root handler answers a request whose URL path is exactly `/` and that carries
no precondition or byte-range header with status 200; the body is the
contents of the file, except for the method HEAD, where it is empty.  It
answers every request with another path, whatever its method and headers,
with 404 and the text `404 page not found`, without opening any file. -/
theorem root_serves_index_only (fs : FileSystem) (conditional : ServeConditional)
    (r : Request) :
    (∀ content, r.Path = "/" → isConditional r = false → fs "index.html" = some content →
      (rootHandler fs conditional ResponseWriter.fresh r).outcome = .returned ∧
      (rootHandler fs conditional ResponseWriter.fresh r).w.code = 200 ∧
      (r.Method ≠ "HEAD" →
        (rootHandler fs conditional ResponseWriter.fresh r).w.body = content) ∧
      (r.Method = "HEAD" →
        (rootHandler fs conditional ResponseWriter.fresh r).w.body = "") ∧
      (rootHandler fs conditional ResponseWriter.fresh r).trace = [.openFile "index.html"]) ∧
    (r.Path ≠ "/" →
      (rootHandler fs conditional ResponseWriter.fresh r).outcome = .returned ∧
      (rootHandler fs conditional ResponseWriter.fresh r).w.code = 404 ∧
      (rootHandler fs conditional ResponseWriter.fresh r).w.body = "404 page not found\n" ∧
      (rootHandler fs conditional ResponseWriter.fresh r).trace = []) := by
  constructor
  · intro content hp hcond hf
    have h1 : containsDotDot "/" = false := by decide
    have h2 : ("/index.html".toList.isSuffixOf "/".toList) = false := by decide
    unfold rootHandler ServeFile
    simp only [hp, hf, h1, h2, hcond]
    by_cases hm : r.Method = "HEAD"
    · simp [hm, WriteHeader, ResponseWriter.fresh, ResponseWriter.code]
    · simp [hm, Write, WriteHeader, ResponseWriter.fresh, ResponseWriter.code]
  · intro hp
    simp [rootHandler, hp, NotFound, Error, Fprintln, Write, WriteHeader, ResponseWriter.fresh,
      ResponseWriter.code]

/-- Witness of `root_serves_index_only`: `GET /` with a one-line page, and
`GET /favicon.ico`. -/
theorem root_serves_index_only_witness :
    (rootHandler (fun n => if n = "index.html" then some "<html></html>" else none)
        (fun w _ _ => w) ResponseWriter.fresh ⟨"GET", "/", [], ⟨"", none⟩⟩).w.body
      = "<html></html>" ∧
    (rootHandler (fun n => if n = "index.html" then some "<html></html>" else none)
        (fun w _ _ => w) ResponseWriter.fresh ⟨"GET", "/favicon.ico", [], ⟨"", none⟩⟩).w.code
      = 404 :=
  ⟨((root_serves_index_only (fun n => if n = "index.html" then some "<html></html>" else none)
      (fun w _ _ => w) ⟨"GET", "/", [], ⟨"", none⟩⟩).1 "<html></html>" rfl rfl rfl).2.2.1
      (by decide),
   ((root_serves_index_only (fun n => if n = "index.html" then some "<html></html>" else none)
      (fun w _ _ => w) ⟨"GET", "/favicon.ico", [], ⟨"", none⟩⟩).2 (by decide)).2.1⟩

/-! ## Theorems: the chat and reasoning relays -/

/-- A client is only ever created after exactly one load of the `.env`
file. -/
theorem createOpenaiChatClient_ok (p : Process) (client : Client)
    (h : (createOpenaiChatClient p).2 = .ok client) :
    createOpenaiChatClient p = ([.loadDotenv], .ok client) := by
  unfold createOpenaiChatClient at h ⊢
  cases hl : godotenvLoad p with
  | error e => simp [hl] at h
  | ok env =>
    simp only [hl] at h ⊢
    by_cases hk : Getenv env "OPENAI_API_KEY" = ""
    · simp [hk] at h
    · simp only [hk, if_false] at h ⊢
      cases h
      rfl

/-- The run of `/reasoning` for a method other than POST. -/
theorem reasoningHandler_not_post (p : Process) (api : ResponsesNew) (r : Request)
    (hm : r.Method ≠ "POST") :
    reasoningHandler p api ResponseWriter.fresh r =
      ⟨Error ResponseWriter.fresh "Method not allowed" 405, [], .returned⟩ := by
  unfold reasoningHandler
  simp [hm]

/-- C5: when the client is created, the body reads as `b` and the upstream
call succeeds with output text `t`, the `/chat` handler and, for a POST, the
`/reasoning` handler return with status 200 and a body equal to `t`; each
makes one upstream call whose input is `b`, `/chat` with the chat model and
`/reasoning` with the reasoning model, and the two identifiers differ. -/
theorem relay_verbatim (p : Process) (api : ResponsesNew) (r : Request) (client : Client)
    (b t : String) (hc : (createOpenaiChatClient p).2 = .ok client)
    (hb : r.Body = ⟨b, none⟩) :
    (api client chatModel b = (some ⟨t⟩, none) →
      (chatHandler p api ResponseWriter.fresh r).outcome = .returned ∧
      (chatHandler p api ResponseWriter.fresh r).w.code = 200 ∧
      (chatHandler p api ResponseWriter.fresh r).w.body = t ∧
      (chatHandler p api ResponseWriter.fresh r).trace =
        [.loadDotenv, .readBody, .responsesNew chatModel b]) ∧
    (r.Method = "POST" → api client o3Model b = (some ⟨t⟩, none) →
      (reasoningHandler p api ResponseWriter.fresh r).outcome = .returned ∧
      (reasoningHandler p api ResponseWriter.fresh r).w.code = 200 ∧
      (reasoningHandler p api ResponseWriter.fresh r).w.body = t ∧
      (reasoningHandler p api ResponseWriter.fresh r).trace =
        [.loadDotenv, .readBody, .responsesNew o3Model b]) ∧
    chatModel ≠ o3Model := by
  have hk := createOpenaiChatClient_ok p client hc
  refine ⟨?_, ?_, by decide⟩
  · intro ha
    unfold chatHandler
    simp [hk, ReadAll, hb, ha, Write, WriteHeader, ResponseWriter.fresh, ResponseWriter.code]
  · intro hm ha
    unfold reasoningHandler
    simp [hm, hk, ReadAll, hb, ha, Write, WriteHeader, ResponseWriter.fresh, ResponseWriter.code]

/-- Witness of `relay_verbatim`: the key comes from the environment, the body
is `hi` and the upstream answers `hello`, a text that ends without a
newline. -/
theorem relay_verbatim_witness :
    (createOpenaiChatClient ⟨[("OPENAI_API_KEY", "sk-test")], .ok []⟩).2 = .ok ⟨"sk-test"⟩ ∧
    (chatHandler ⟨[("OPENAI_API_KEY", "sk-test")], .ok []⟩ (fun _ _ _ => (some ⟨"hello"⟩, none))
        ResponseWriter.fresh ⟨"POST", "/chat", [], ⟨"hi", none⟩⟩).w.body = "hello" ∧
    (reasoningHandler ⟨[("OPENAI_API_KEY", "sk-test")], .ok []⟩
        (fun _ _ _ => (some ⟨"hello"⟩, none))
        ResponseWriter.fresh ⟨"POST", "/chat", [], ⟨"hi", none⟩⟩).w.body = "hello" :=
  ⟨rfl,
   ((relay_verbatim ⟨[("OPENAI_API_KEY", "sk-test")], .ok []⟩ (fun _ _ _ => (some ⟨"hello"⟩, none))
      ⟨"POST", "/chat", [], ⟨"hi", none⟩⟩ ⟨"sk-test"⟩ "hi" "hello" rfl rfl).1 rfl).2.2.1,
   ((relay_verbatim ⟨[("OPENAI_API_KEY", "sk-test")], .ok []⟩ (fun _ _ _ => (some ⟨"hello"⟩, none))
      ⟨"POST", "/chat", [], ⟨"hi", none⟩⟩ ⟨"sk-test"⟩ "hi" "hello" rfl rfl).2.1 rfl rfl).2.2.1⟩

/-- For a method other than POST, `/reasoning` answers 405 without creating a
client, reading the body or calling upstream, whatever the environment. -/
theorem reasoning_not_post_405 (p : Process) (api : ResponsesNew) (r : Request)
    (hm : r.Method ≠ "POST") :
    (reasoningHandler p api ResponseWriter.fresh r).outcome = .returned ∧
    (reasoningHandler p api ResponseWriter.fresh r).w.code = 405 ∧
    (reasoningHandler p api ResponseWriter.fresh r).w.body = "Method not allowed\n" ∧
    (reasoningHandler p api ResponseWriter.fresh r).trace = [] := by
  rw [reasoningHandler_not_post p api r hm]
  exact ⟨rfl, rfl, rfl, rfl⟩

/-- When the body cannot be read, `/reasoning` answers 400 and `/chat` writes
the same error line under status 200; neither calls upstream. -/
theorem read_failure_statuses (p : Process) (api : ResponsesNew) (r : Request) (client : Client)
    (b e : String) (hc : (createOpenaiChatClient p).2 = .ok client) (hm : r.Method = "POST")
    (hb : r.Body = ⟨b, some e⟩) :
    reasoningHandler p api ResponseWriter.fresh r =
      ⟨Error ResponseWriter.fresh ("Error reading request body: " ++ e) 400,
        [.loadDotenv, .readBody], .returned⟩ ∧
    chatHandler p api ResponseWriter.fresh r =
      ⟨⟨some 200, [], "Error reading request body: " ++ e ++ "\n"⟩,
        [.loadDotenv, .readBody], .returned⟩ := by
  have hk := createOpenaiChatClient_ok p client hc
  constructor
  · unfold reasoningHandler
    simp [hm, hk, ReadAll, hb]
  · unfold chatHandler
    simp [hk, ReadAll, hb, Write, WriteHeader, ResponseWriter.fresh]

/-- When the upstream call fails and returns no response, `/reasoning`
answers 500 and returns, while `/chat` writes the error line and panics. -/
theorem upstream_failure_outcomes (p : Process) (api : ResponsesNew) (r : Request)
    (client : Client) (b e : String) (hc : (createOpenaiChatClient p).2 = .ok client)
    (hm : r.Method = "POST") (hb : r.Body = ⟨b, none⟩)
    (h3 : api client o3Model b = (none, some e)) (h4 : api client chatModel b = (none, some e)) :
    reasoningHandler p api ResponseWriter.fresh r =
      ⟨Error ResponseWriter.fresh ("Error creating chat completion: " ++ e) 500,
        [.loadDotenv, .readBody, .responsesNew o3Model b], .returned⟩ ∧
    chatHandler p api ResponseWriter.fresh r =
      ⟨⟨some 200, [], "Error creating chat completion: " ++ e ++ "\n"⟩,
        [.loadDotenv, .readBody, .responsesNew chatModel b], .panicked nilDereference⟩ := by
  have hk := createOpenaiChatClient_ok p client hc
  constructor
  · unfold reasoningHandler
    simp [hm, hk, ReadAll, hb, h3]
  · unfold chatHandler
    simp [hk, ReadAll, hb, h4, Write, WriteHeader, ResponseWriter.fresh]

/-- C6 at its failing inputs.  For one POST whose body cannot be read, `/chat`
answers 200 and `/reasoning` 400; for one POST whose upstream call fails with
a nil response, `/chat` panics after writing the error text under status 200
while `/reasoning` returns 500. -/
theorem reasoning_differs_from_chat :
    (chatHandler ⟨[("OPENAI_API_KEY", "sk-test")], .ok []⟩ (fun _ _ _ => (some ⟨"hello"⟩, none))
        ResponseWriter.fresh ⟨"POST", "/chat", [], ⟨"", some "unexpected EOF"⟩⟩).w.code = 200 ∧
    (reasoningHandler ⟨[("OPENAI_API_KEY", "sk-test")], .ok []⟩
        (fun _ _ _ => (some ⟨"hello"⟩, none))
        ResponseWriter.fresh ⟨"POST", "/chat", [], ⟨"", some "unexpected EOF"⟩⟩).w.code = 400 ∧
    (chatHandler ⟨[("OPENAI_API_KEY", "sk-test")], .ok []⟩ (fun _ _ _ => (none, some "503"))
        ResponseWriter.fresh ⟨"POST", "/chat", [], ⟨"hi", none⟩⟩).w.code = 200 ∧
    (chatHandler ⟨[("OPENAI_API_KEY", "sk-test")], .ok []⟩ (fun _ _ _ => (none, some "503"))
        ResponseWriter.fresh ⟨"POST", "/chat", [], ⟨"hi", none⟩⟩).outcome = .panicked nilDereference ∧
    (reasoningHandler ⟨[("OPENAI_API_KEY", "sk-test")], .ok []⟩ (fun _ _ _ => (none, some "503"))
        ResponseWriter.fresh ⟨"POST", "/chat", [], ⟨"hi", none⟩⟩).w.code = 500 ∧
    (reasoningHandler ⟨[("OPENAI_API_KEY", "sk-test")], .ok []⟩ (fun _ _ _ => (none, some "503"))
        ResponseWriter.fresh ⟨"POST", "/chat", [], ⟨"hi", none⟩⟩).outcome = .returned := by
  decide

/-- C8 at its failing input.  When the body of a request to `/chat` cannot be
read, the handler returns without an upstream call, but the status of the
response is 200, not 400: the error line is written with no status set. -/
theorem chat_read_failure_is_200 :
    (chatHandler ⟨[("OPENAI_API_KEY", "sk-test")], .ok []⟩ (fun _ _ _ => (some ⟨"hello"⟩, none))
        ResponseWriter.fresh ⟨"POST", "/chat", [], ⟨"", some "unexpected EOF"⟩⟩) =
      ⟨⟨some 200, [], "Error reading request body: unexpected EOF\n"⟩,
        [.loadDotenv, .readBody], .returned⟩ := by
  decide

/-- C10 at its failing input.  When the upstream call of `/chat` fails and
returns no response, the handler writes the error line and then still asks
the absent response for its output text: the run ends in a nil-pointer
panic. -/
theorem chat_upstream_failure_panics :
    (chatHandler ⟨[("OPENAI_API_KEY", "sk-test")], .ok []⟩
        (fun _ _ _ => (none, some "connection refused"))
        ResponseWriter.fresh ⟨"POST", "/chat", [], ⟨"hi", none⟩⟩) =
      ⟨⟨some 200, [], "Error creating chat completion: connection refused\n"⟩,
        [.loadDotenv, .readBody, .responsesNew chatModel "hi"], .panicked nilDereference⟩ := by
  decide

/-! ## Theorems: JSON strings -/

/-- Reading a hexadecimal digit back gives its value. -/
theorem unhexDigit_hexDigit : ∀ k, k < 16 → unhexDigit (hexDigit k) = k := by
  decide

/-- A character is determined by its code point. -/
theorem char_eq_of_toNat (c : Char) (n : Nat) (h : c.toNat = n) : Char.ofNat n = c := by
  rw [← h]
  exact Char.ofNat_toNat c

/-- One step of reading undoes one step of escaping. -/
theorem unescapeStep_escapeChar (c : Char) (x : List Char) :
    unescapeStep ((escapeChar c).data ++ x) = some (c, x) := by
  unfold escapeChar
  simp only
  split_ifs with h1 h2 h3 h4 h5 h6 h7 h8
  · simp [unescapeStep]
    exact char_eq_of_toNat c _ h1
  · simp [unescapeStep]
    exact char_eq_of_toNat c _ h2
  · simp [unescapeStep]
    exact char_eq_of_toNat c _ h3
  · simp [unescapeStep]
    exact char_eq_of_toNat c _ h4
  · simp [unescapeStep]
    exact char_eq_of_toNat c _ h5
  · simp [unescapeStep]
    exact char_eq_of_toNat c _ h6
  · simp [unescapeStep]
    exact char_eq_of_toNat c _ h7
  · have e : 4096 * (c.toNat / 4096 % 16) + 256 * (c.toNat / 256 % 16) + 16 * (c.toNat / 16 % 16)
        + c.toNat % 16 = c.toNat := by omega
    simp [unescapeStep, hex4, String.data_append, unhexDigit_hexDigit, Nat.mod_lt, e,
      Char.ofNat_toNat]
  · simp [unescapeStep, String.singleton, h2]

/-- No character is escaped to the empty text. -/
theorem escapeChar_data_ne_nil (c : Char) : (escapeChar c).data ≠ [] := by
  intro h
  have h2 := unescapeStep_escapeChar c []
  rw [h] at h2
  simp [unescapeStep] at h2

/-- The characters of a left fold of appends. -/
theorem foldl_append_data (l : List String) (acc : String) :
    (l.foldl (fun r s => r ++ s) acc).data = acc.data ++ (l.map String.data).flatten := by
  induction l generalizing acc with
  | nil => simp
  | cons a l ih => simp [ih, String.data_append]

/-- The characters of `String.join`. -/
theorem join_data (l : List String) : (String.join l).data = (l.map String.data).flatten := by
  unfold String.join
  rw [foldl_append_data]
  rfl

/-- Escaping character by character is injective. -/
theorem escape_flatten_injective : ∀ l1 l2 : List Char,
    ((l1.map escapeChar).map String.data).flatten = ((l2.map escapeChar).map String.data).flatten →
    l1 = l2
  | [], [] => fun _ => rfl
  | [], d :: l2 => fun h => by
    simp at h
    exact absurd h.1 (escapeChar_data_ne_nil d)
  | c :: l1, [] => fun h => by
    simp at h
    exact absurd h.1 (escapeChar_data_ne_nil c)
  | c :: l1, d :: l2 => fun h => by
    simp only [List.map_cons, List.flatten_cons] at h
    have h2 := congrArg unescapeStep h
    rw [unescapeStep_escapeChar, unescapeStep_escapeChar] at h2
    simp only [Option.some.injEq, Prod.mk.injEq] at h2
    rw [h2.1, escape_flatten_injective l1 l2 h2.2]

/-- Different strings have different JSON literals. -/
theorem jsonString_injective (s t : String) (h : jsonString s = jsonString t) : s = t := by
  unfold jsonString at h
  have h2 := congrArg String.data h
  simp only [String.data_append, join_data] at h2
  have h3 := List.append_cancel_left (List.append_cancel_right h2)
  exact String.ext (escape_flatten_injective _ _ h3)

/-- Different keys have different success bodies. -/
theorem sessionSuccessBody_injective (j k : String)
    (h : sessionSuccessBody j = sessionSuccessBody k) : j = k := by
  unfold sessionSuccessBody at h
  have h2 := congrArg String.data h
  simp only [String.data_append] at h2
  have h3 := List.append_cancel_left (List.append_cancel_right h2)
  exact jsonString_injective j k (String.ext h3)

/-! ## Theorems: the session key -/

/-- The function `createSessionKey` returns a key exactly when the upstream call answers
200 with a readable body that decodes to a non-empty `client_secret.value`,
and then returns that value. -/
theorem createSessionKey_ok_iff (transport : Transport)
    (unmarshal : String → Except String TokenResponse) (apiKey k : String) :
    (createSessionKey transport unmarshal apiKey).2 = .ok k ↔
      ∃ token tr,
        transport "POST" "https://api.openai.com/v1/realtime/sessions"
          [("Content-Type", "application/json"), ("Authorization", "Bearer " ++ apiKey)]
          "\x7b\"model\":\"gpt-4o-realtime-preview-2024-12-17\",\"voice\":\"echo\"\x7d"
          = .ok token ∧
        token.StatusCode = 200 ∧ token.Body.err = none ∧
        unmarshal token.Body.data = .ok tr ∧ tr.ClientSecret.Value = k ∧ k ≠ "" := by
  have hbody : marshalSessionRequest "gpt-4o-realtime-preview-2024-12-17" "echo" =
      .ok "\x7b\"model\":\"gpt-4o-realtime-preview-2024-12-17\",\"voice\":\"echo\"\x7d" := rfl
  have hhdr : Header.Set (Header.Set [] "Content-Type" "application/json") "Authorization"
      ("Bearer " ++ apiKey) =
      [("Content-Type", "application/json"), ("Authorization", "Bearer " ++ apiKey)] := by
    simp [Header.Set, Header.Del]
  unfold createSessionKey
  simp only [hbody, hhdr]
  cases ht : transport "POST" "https://api.openai.com/v1/realtime/sessions"
      [("Content-Type", "application/json"), ("Authorization", "Bearer " ++ apiKey)]
      "\x7b\"model\":\"gpt-4o-realtime-preview-2024-12-17\",\"voice\":\"echo\"\x7d" with
  | error e => simp
  | ok token =>
    by_cases hs : token.StatusCode = 200
    · cases hr : token.Body.err with
      | some e => simp [hs, ReadAll, hr]
      | none =>
        cases hu : unmarshal token.Body.data with
        | error e => simp [hs, ReadAll, hr, hu]
        | ok tr =>
          by_cases hv : tr.ClientSecret.Value = ""
          · simp only [ne_eq, hs, not_true_eq_false, not_false_eq_true, ↓reduceIte, ReadAll, hr, hu, hv]
            constructor
            · intro h
              simp at h
            · rintro ⟨token2, tr2, h1, -, -, h4, h5, h6⟩
              cases h1
              rw [hu] at h4
              cases h4
              exact absurd (hv ▸ h5 : "" = k).symm h6
          · simp only [ne_eq, hs, not_true_eq_false, not_false_eq_true, ↓reduceIte, ReadAll, hr, hu, hv]
            constructor
            · intro h
              simp at h
              exact ⟨token, tr, rfl, hs, hr, hu, h, h ▸ hv⟩
            · rintro ⟨token2, tr2, h1, -, -, h4, h5, -⟩
              cases h1
              rw [hu] at h4
              cases h4
              simp [h5]
    · simp only [ne_eq, hs, not_false_eq_true, ↓reduceIte]
      constructor
      · intro h
        simp at h
      · rintro ⟨token2, tr2, h1, h2, -⟩
        cases h1
        exact absurd h2 hs

/-- What the `/session` handler writes for each result of
`createSessionKey`. -/
theorem sessionHandler_cases (transport : Transport)
    (unmarshal : String → Except String TokenResponse) (apiKey : String) (r : Request) :
    (∀ k, (createSessionKey transport unmarshal apiKey).2 = .ok k →
      (sessionHandler transport unmarshal apiKey ResponseWriter.fresh r).outcome = .returned ∧
      (sessionHandler transport unmarshal apiKey ResponseWriter.fresh r).w.code = 200 ∧
      (sessionHandler transport unmarshal apiKey ResponseWriter.fresh r).w.body =
        sessionSuccessBody k) ∧
    (∀ e, (createSessionKey transport unmarshal apiKey).2 = .error e →
      (sessionHandler transport unmarshal apiKey ResponseWriter.fresh r).outcome = .returned ∧
      (sessionHandler transport unmarshal apiKey ResponseWriter.fresh r).w.code = 500 ∧
      (sessionHandler transport unmarshal apiKey ResponseWriter.fresh r).w.body =
        "Error creating session key. " ++ e ++ "\n") := by
  unfold sessionHandler
  rcases hc : createSessionKey transport unmarshal apiKey with ⟨ev, res⟩
  cases res with
  | error e0 =>
    refine ⟨fun k hk => by simp at hk, fun e he => ?_⟩
    simp at he
    subst he
    simp [Write, WriteHeader, ResponseWriter.fresh, ResponseWriter.code]
  | ok k0 =>
    refine ⟨fun k hk => ?_, fun e he => by simp at he⟩
    simp at hk
    subst hk
    simp [Encode, marshalSessionResponse, Write, WriteHeader, ResponseWriter.fresh,
      ResponseWriter.code, sessionSuccessBody, String.append_assoc]

/-- C7: the `/session` handler answers with status 200 and the success object
carrying `k` exactly when the upstream session-creation call answered 200 with
a readable body whose `client_secret.value` is `k` and `k` is not empty; when
no `k` qualifies, `createSessionKey` returns an error and the answer is 500
with the error line, which is no success object; a 200 answer never carries
the empty key. -/
theorem session_success_iff (transport : Transport)
    (unmarshal : String → Except String TokenResponse) (apiKey : String) (r : Request) :
    (∀ k,
      ((sessionHandler transport unmarshal apiKey ResponseWriter.fresh r).w.code = 200 ∧
        (sessionHandler transport unmarshal apiKey ResponseWriter.fresh r).w.body =
          sessionSuccessBody k) ↔
      ∃ token tr,
        transport "POST" "https://api.openai.com/v1/realtime/sessions"
          [("Content-Type", "application/json"), ("Authorization", "Bearer " ++ apiKey)]
          "\x7b\"model\":\"gpt-4o-realtime-preview-2024-12-17\",\"voice\":\"echo\"\x7d"
          = .ok token ∧
        token.StatusCode = 200 ∧ token.Body.err = none ∧
        unmarshal token.Body.data = .ok tr ∧ tr.ClientSecret.Value = k ∧ k ≠ "") ∧
    ((¬ ∃ k token tr,
        transport "POST" "https://api.openai.com/v1/realtime/sessions"
          [("Content-Type", "application/json"), ("Authorization", "Bearer " ++ apiKey)]
          "\x7b\"model\":\"gpt-4o-realtime-preview-2024-12-17\",\"voice\":\"echo\"\x7d"
          = .ok token ∧
        token.StatusCode = 200 ∧ token.Body.err = none ∧
        unmarshal token.Body.data = .ok tr ∧ tr.ClientSecret.Value = k ∧ k ≠ "") →
      ∃ e, (createSessionKey transport unmarshal apiKey).2 = .error e ∧
        (sessionHandler transport unmarshal apiKey ResponseWriter.fresh r).w.code = 500 ∧
        (sessionHandler transport unmarshal apiKey ResponseWriter.fresh r).w.body =
          "Error creating session key. " ++ e ++ "\n" ∧
        ∀ k, (sessionHandler transport unmarshal apiKey ResponseWriter.fresh r).w.body ≠
          sessionSuccessBody k) ∧
    ((sessionHandler transport unmarshal apiKey ResponseWriter.fresh r).w.code = 200 →
      (sessionHandler transport unmarshal apiKey ResponseWriter.fresh r).w.body ≠
        sessionSuccessBody "") ∧
    (sessionHandler transport unmarshal apiKey ResponseWriter.fresh r).outcome = .returned := by
  obtain ⟨hok, herr⟩ := sessionHandler_cases transport unmarshal apiKey r
  have hiff := createSessionKey_ok_iff transport unmarshal apiKey
  cases hc : (createSessionKey transport unmarshal apiKey).2 with
  | error e =>
    obtain ⟨ho, hcode, hbody⟩ := herr e hc
    have hnone : ∀ k, ¬ ((createSessionKey transport unmarshal apiKey).2 = .ok k) := by
      intro k hk
      rw [hc] at hk
      cases hk
    have hne : ∀ k, (sessionHandler transport unmarshal apiKey ResponseWriter.fresh r).w.body ≠
        sessionSuccessBody k := by
      intro k
      rw [hbody, String.append_assoc]
      unfold sessionSuccessBody
      exact front_ne (Char.ofNat 69) (Char.ofNat 123) _ _ _ _ (by decide)
    refine ⟨fun k => ⟨fun h => ?_, fun h => ?_⟩, fun _ => ⟨e, rfl, hcode, hbody, hne⟩, ?_, ho⟩
    · rw [hcode] at h
      exact absurd h.1 (by decide)
    · exact absurd ((hiff k).2 h) (hnone k)
    · intro h
      rw [hcode] at h
      exact absurd h (by decide)
  | ok k0 =>
    obtain ⟨ho, hcode, hbody⟩ := hok k0 hc
    have hk0 := (hiff k0).1 hc
    refine ⟨fun k => ⟨fun h => ?_, fun h => ?_⟩, fun hno => ?_, fun _ => ?_, ho⟩
    · have hk : k0 = k := sessionSuccessBody_injective k0 k (hbody ▸ h.2)
      exact hk ▸ hk0
    · have hk := (hiff k).2 h
      rw [hc] at hk
      cases hk
      exact ⟨hcode, hbody⟩
    · exact absurd ⟨k0, hk0⟩ hno
    · intro h
      have hk : k0 = "" := sessionSuccessBody_injective k0 "" (hbody ▸ h)
      obtain ⟨_, _, _, _, _, _, _, hne⟩ := hk0
      exact hne hk

/-- Witness of `session_success_iff`: the upstream answers 200 with a body
that decodes to the secret `ek_1`, and the handler answers 200 with the
success object for `ek_1`. -/
theorem session_success_iff_witness :
    (sessionHandler (fun _ _ _ _ => .ok ⟨200, ⟨"body", none⟩⟩) (fun _ => .ok ⟨⟨"ek_1"⟩⟩) "sk-test"
        ResponseWriter.fresh ⟨"GET", "/session", [], ⟨"", none⟩⟩).w.code = 200 ∧
    (sessionHandler (fun _ _ _ _ => .ok ⟨200, ⟨"body", none⟩⟩) (fun _ => .ok ⟨⟨"ek_1"⟩⟩) "sk-test"
        ResponseWriter.fresh ⟨"GET", "/session", [], ⟨"", none⟩⟩).w.body =
      "\x7b\"success\":true,\"key\":\"ek_1\"\x7d\n" :=
  ((session_success_iff (fun _ _ _ _ => .ok ⟨200, ⟨"body", none⟩⟩) (fun _ => .ok ⟨⟨"ek_1"⟩⟩)
    "sk-test" ⟨"GET", "/session", [], ⟨"", none⟩⟩).1 "ek_1").2
    ⟨⟨200, ⟨"body", none⟩⟩, ⟨⟨"ek_1"⟩⟩, rfl, rfl, rfl, rfl, rfl, by decide⟩

/-! ## Theorems: start-up -/

/-- C9: when the API-key variable that `main` reads at start-up (the process
environment once the `.env` file is loaded) is absent or empty, `main` exits
with status 1 after printing one diagnostic line, and the run registers no
route and never reaches `ListenAndServe`. -/
theorem main_exits_without_key (p : Process) (listen : Option String)
    (hkey : ∀ env, godotenvLoad p = .ok env → Getenv env "OPENAI_API_KEY" = "") :
    (main p listen).2 = .exited 1 ∧
    ((∃ err, godotenvLoad p = .error err ∧
        (main p listen).1 =
          [.loadDotenv, .stdout ("Warning: Error loading .env file: " ++ err ++ "\n")]) ∨
      (main p listen).1 = [.loadDotenv, .stderr "OPENAI_API_KEY is not set\n"]) ∧
    (∀ pattern, Event.handleFunc pattern ∉ (main p listen).1) ∧
    (∀ addr, Event.listenAndServe addr ∉ (main p listen).1) := by
  unfold main
  cases hl : godotenvLoad p with
  | error err => simp
  | ok env => simp [hkey env hl]

/-- Witness of `main_exits_without_key`: an environment without the key and
an empty `.env` file. -/
theorem main_exits_without_key_witness :
    Getenv [("HOME", "/root")] "OPENAI_API_KEY" = "" ∧
    main ⟨[("HOME", "/root")], .ok []⟩ none =
      ([.loadDotenv, .stderr "OPENAI_API_KEY is not set\n"], .exited 1) :=
  ⟨by decide,
   Prod.ext
    (((main_exits_without_key ⟨[("HOME", "/root")], .ok []⟩ none
      (fun env h => by cases h; decide)).2.1).resolve_left
        (fun h => by obtain ⟨err, he, _⟩ := h; cases he))
    (main_exits_without_key ⟨[("HOME", "/root")], .ok []⟩ none
      (fun env h => by cases h; decide)).1⟩

/-- When the key is set, `main` registers the five routes in source order and
then listens on port 8080. -/
theorem main_serves_with_key (p : Process) (env : Environ)
    (hl : godotenvLoad p = .ok env) (hk : Getenv env "OPENAI_API_KEY" ≠ "") :
    main p none =
      ([.loadDotenv, .handleFunc "/session", .handleFunc "/chat", .handleFunc "/",
        .handleFunc "/tools/getWeather", .handleFunc "/reasoning",
        .stdout "http://localhost:8080\n", .listenAndServe ":8080"], .serving) := by
  unfold main
  simp [hl, hk]

end FixGPT
